import Mathlib

/-!
Verification of the OpenCL grayscale-conversion repository
(`src/host.c` — BMP variant and stb_image variant — and
`src/OpenCL-and-Docker/host.c` — OpenCV variant) against its
natural-language specification.

The development shallowly embeds:
* the device kernel `rgb_to_gray` (identical in all three variants up to
  local variable names), including its IEEE-754 binary32 arithmetic,
  modelled exactly with dyadic rationals and round-to-nearest-even;
* the host pipeline of `main` (ordered OpenCL calls, each followed by
  `checkError`), its buffer sizes, kernel-argument error aggregation,
  build-log handling, resource creation/release order, and the
  fatal-error exit behaviour.
-/

/-! ## Exact model of IEEE-754 binary32 arithmetic on nonnegative values

The kernel computes `(uchar)(0.299f * red + 0.587f * green + 0.114f * blue)`.
All values arising in that expression are nonnegative dyadic rationals, so we
represent a float value as a pair `⟨m, e⟩` denoting `m / 2^e` and implement
round-to-nearest-even at 24 significant bits.  For every value reached from
`uchar` inputs the exponent stays far inside the normal binary32 range, so
overflow/underflow handling is not needed.
-/

/-- A nonnegative dyadic rational `m / 2^e`.  Used to model binary32 values
and exact intermediate products/sums before rounding. -/
structure Dyadic where
  m : Nat
  e : Nat
deriving DecidableEq

/-- The rational value denoted by a `Dyadic`. -/
def Dyadic.val (d : Dyadic) : ℚ := (d.m : ℚ) / 2 ^ d.e

/-- Exact product of two dyadics. -/
def Dyadic.mul (a b : Dyadic) : Dyadic := ⟨a.m * b.m, a.e + b.e⟩

/-- Exact sum of two dyadics (align to the larger exponent). -/
def Dyadic.add (a b : Dyadic) : Dyadic :=
  if a.e ≤ b.e then ⟨a.m * 2 ^ (b.e - a.e) + b.m, b.e⟩
  else ⟨a.m + b.m * 2 ^ (a.e - b.e), a.e⟩

/-- Truncation toward zero to a natural number — the effect of the C cast
`(uchar)` on an in-range nonnegative float value. -/
def Dyadic.trunc (d : Dyadic) : Nat := d.m / 2 ^ d.e

/-- Fuel-driven floor of the base-2 logarithm (exact for every `n < 2^64`,
far beyond any mantissa reached in this development).  Structural recursion
on the fuel keeps it kernel-reducible. -/
def log2fuel : Nat → Nat → Nat
  | 0, _ => 0
  | f + 1, n => if n < 2 then 0 else log2fuel f (n / 2) + 1

/-- Floor of log₂ for the mantissa range used here. -/
def floorLog2 (n : Nat) : Nat := log2fuel 64 n

/-- Round `n` to a multiple of `2^s` (given as the quotient), using
round-to-nearest, ties to even — the IEEE-754 default.  Requires `1 ≤ s`. -/
def roundEven (n s : Nat) : Nat :=
  let q := n / 2 ^ s
  let r := n % 2 ^ s
  let half := 2 ^ (s - 1)
  if half < r then q + 1
  else if r < half then q
  else if q % 2 = 0 then q else q + 1

/-- Round an exact nonnegative dyadic value to binary32 precision
(24 significant bits, round-to-nearest-even).  If the mantissa already fits
in 24 bits the value is exactly representable and returned unchanged. -/
def roundF32 (d : Dyadic) : Dyadic :=
  if d.m < 2 ^ 24 then d
  else
    let s := floorLog2 d.m - 23
    ⟨roundEven d.m s, d.e - s⟩

/-- The binary32 value of the literal `0.299f`: `10032775 / 2^25`
(the nearest 24-bit dyadic to `299/1000`; see `w299_nearest`). -/
def w299 : Dyadic := ⟨10032775, 25⟩

/-- The binary32 value of the literal `0.587f`: `9848226 / 2^24`
(the nearest 24-bit dyadic to `587/1000`; see `w587_nearest`). -/
def w587 : Dyadic := ⟨9848226, 24⟩

/-- The binary32 value of the literal `0.114f`: `15300821 / 2^27`
(the nearest 24-bit dyadic to `114/1000`; see `w114_nearest`). -/
def w114 : Dyadic := ⟨15300821, 27⟩

/-- Conversion of a `uchar` channel value to float — exact for `v < 2^24`. -/
def ucharToF32 (v : Nat) : Dyadic := ⟨v, 0⟩

/-- The luminance computation of the kernel body,
`(uchar)(0.299f * red + 0.587f * green + 0.114f * blue)`,
with every `*` and `+` correctly rounded to binary32
(round-to-nearest-even) and the sum associated to the left as in C. -/
def grayF32 (red green blue : Nat) : Nat :=
  let tr := roundF32 (w299.mul (ucharToF32 red))
  let tg := roundF32 (w587.mul (ucharToF32 green))
  let tb := roundF32 (w114.mul (ucharToF32 blue))
  (roundF32 ((roundF32 (tr.add tg)).add tb)).trunc

/-! ## The kernel `rgb_to_gray`

Embedded from the `kernelCode` string constant (identical in the three
variants up to local variable names):

    int x = get_global_id(0);
    int y = get_global_id(1);
    int idx = (y * width + x) * channels;
    uchar blue  = input[idx];
    uchar green = input[idx + 1];
    uchar red   = input[idx + 2];
    uchar gray = (uchar)(0.299f * red + 0.587f * green + 0.114f * blue);
    int gray_idx = y * width + x;
    output[gray_idx] = gray;

The input buffer is modelled as a function from byte offsets to byte
values; the kernel's integer arithmetic stays far below `2^31` for any
realistic image, so `Nat` arithmetic is exact.
-/

/-- `idx = (y * width + x) * channels` — byte offset of the pixel's first
channel in the input buffer. -/
def kIdx (width channels x y : Nat) : Nat := (y * width + x) * channels

/-- `gray_idx = y * width + x` — index of the work-item's single output
byte. -/
def grayIdx (width x y : Nat) : Nat := y * width + x

/-- The three input byte offsets the kernel reads unconditionally. -/
def inputReads (width channels x y : Nat) : List Nat :=
  [kIdx width channels x y, kIdx width channels x y + 1, kIdx width channels x y + 2]

/-- One work-item of `rgb_to_gray`: reads `input[idx]` (blue),
`input[idx+1]` (green), `input[idx+2]` (red) and produces the gray byte. -/
def rgbToGrayWorkItem (input : Nat → Nat) (width channels x y : Nat) : Nat :=
  let idx := kIdx width channels x y
  let blue := input idx
  let green := input (idx + 1)
  let red := input (idx + 2)
  grayF32 red green blue

/-- `work_dim` argument of `clEnqueueNDRangeKernel` in every variant. -/
def workDim : Nat := 2

/-- `size_t globalWorkSize[2] = { (size_t)width, (size_t)height };` -/
def globalWorkSize (width height : Nat) : List Nat := [width, height]

/-- The `local_work_size` argument of `clEnqueueNDRangeKernel` is `NULL`
in every variant: no local/group-size hint. -/
def localWorkSize : Option (List Nat) := none

/-- The full dispatch: one work-item per grid cell of the exact
`width × height` index space, each writing its byte at `y*width + x`.
The output buffer is represented as the list of its `width*height` bytes
in address order. -/
def runKernel (input : Nat → Nat) (width height channels : Nat) : List Nat :=
  (List.range (width * height)).map
    (fun i => rgbToGrayWorkItem input width channels (i % width) (i / width))

/-! ## Channel-order contract (claim C4) -/

/-- A color channel. -/
inductive Channel
  | red
  | green
  | blue
deriving DecidableEq

/-- How the kernel interprets the byte at `idx + i`: the weight `0.114f`
(blue) is applied to offset 0, `0.587f` (green) to offset 1 and `0.299f`
(red) to offset 2 — from the kernel source of every variant. -/
def kernelChannelAt : Nat → Option Channel
  | 0 => some Channel.blue
  | 1 => some Channel.green
  | 2 => some Channel.red
  | _ => none

/-- Modelled from the spec: the BMP loader (`loadBMP` reads the raw pixel
array of a 24-bit BMP file) supplies interleaved B,G,R bytes — the byte
order of the BMP on-disk format, external to the code under `src/`. -/
def bmpLoaderChannelAt : Nat → Option Channel
  | 0 => some Channel.blue
  | 1 => some Channel.green
  | 2 => some Channel.red
  | _ => none

/-- Modelled from the spec: `cv::imread` (OpenCV variant) supplies
interleaved B,G,R bytes — OpenCV's documented memory layout, external to
the code under `src/`. -/
def cvLoaderChannelAt : Nat → Option Channel
  | 0 => some Channel.blue
  | 1 => some Channel.green
  | 2 => some Channel.red
  | _ => none

/-- Modelled from the spec and the source's own comment: `stbi_load(..., 3)`
is called with the comment `// Load as RGB` (stb_image variant), so it
supplies interleaved R,G,B bytes — stb_image's documented layout, external
to the code under `src/`. -/
def stbLoaderChannelAt : Nat → Option Channel
  | 0 => some Channel.red
  | 1 => some Channel.green
  | 2 => some Channel.blue
  | _ => none

/-- An all-white input buffer: every channel byte 255. -/
def whiteInput : Nat → Nat := fun _ => 255

/-- An all-black input buffer: every channel byte 0. -/
def blackInput : Nat → Nat := fun _ => 0

/-- A pure-red 3-channel image stored per the B,G,R channel contract of the
BMP/OpenCV loaders: the red byte (offset 2 of each pixel) is 255, blue and
green are 0. -/
def bgrPureRedInput : Nat → Nat := fun i => if i % 3 = 2 then 255 else 0

/-- A pure-red 3-channel image in the R,G,B order produced by the
stb_image loader: the red byte at offset 0 of each pixel. -/
def stbPureRedInput : Nat → Nat := fun i => if i % 3 = 0 then 255 else 0

/-! ## Buffer sizes (claim C3)

Sizes in bytes of the output device buffer and of the host result buffer,
read off the `clCreateBuffer`/`malloc`/readback calls of each variant.
-/

/-- BMP variant: `clCreateBuffer(context, CL_MEM_WRITE_ONLY, width * height, ...)`. -/
def outputBufferSizeBMP (width height : Nat) : Nat := width * height

/-- BMP variant: `malloc(width * height)` for `grayImage`, and the readback
transfers `width * height` bytes. -/
def hostResultSizeBMP (width height : Nat) : Nat := width * height

/-- stb_image variant: `clCreateBuffer(context, CL_MEM_WRITE_ONLY, width * height, ...)`. -/
def outputBufferSizeStb (width height : Nat) : Nat := width * height

/-- stb_image variant: `malloc(width * height)` and readback of
`width * height` bytes. -/
def hostResultSizeStb (width height : Nat) : Nat := width * height

/-- OpenCV variant: `clCreateBuffer(context, CL_MEM_WRITE_ONLY,
colorImage.total() / channels, ...)` where `cv::Mat::total()` is the number
of pixels `width * height` (not bytes), so the allocated size is
`(width * height) / channels`. -/
def outputBufferSizeCV (width height channels : Nat) : Nat := (width * height) / channels

/-- OpenCV variant: the host result `cv::Mat grayImage(height, width, CV_8UC1)`
holds `width * height` bytes, and the readback requests `grayImage.total()`
= `width * height` bytes from the output device buffer. -/
def hostResultSizeCV (width height : Nat) : Nat := width * height

/-! ## Fatal-error handling (claims C6, C8, C9)

`checkError` in the BMP and stb variants:

    void checkError(cl_int err, const char* message) {
        if (err != CL_SUCCESS) {
            fprintf(stderr, "Error: %s (Error code: %d)\n", message, err);
            exit(1);
        }
    }

(The OpenCV variant is identical except that its format string reads
`(error code: %d)` with a lowercase `e`.)  `CL_SUCCESS = 0`.  Error codes
are modelled as `Int` (`cl_int` is a signed 32-bit integer and every CL
error code is a small negative value, so no wraparound occurs).
-/

/-- The diagnostic line `checkError` writes to `stderr` in the BMP and stb
variants (the `fprintf` terminates it with a newline, elided here). -/
def clErrorMessage (desc : String) (err : Int) : String :=
  "Error: " ++ desc ++ " (Error code: " ++ toString err ++ ")"

/-- The diagnostic line of the OpenCV variant's `checkError`: lowercase
`error code`. -/
def clErrorMessageCV (desc : String) (err : Int) : String :=
  "Error: " ++ desc ++ " (error code: " ++ toString err ++ ")"

/-- Behaviour of one `checkError(err, desc)` call: `none` when the call
succeeded, otherwise the stderr line and the exit status 1. -/
def checkErrorRun (err : Int) (desc : String) : Option (String × Int) :=
  if err = 0 then none else some (clErrorMessage desc err, 1)

/-- The success path: `printf("Grayscale image has been generated.\n")`
followed by `return 0` (all variants). -/
def successExit : String × Int := ("Grayscale image has been generated.", 0)

/-- BMP variant, `loadBMP` failure to open the input file: stderr line and
`exit(1)`. -/
def bmpOpenFailureExit : String × Int :=
  ("Error: Unable to open file image.bmp.", 1)

/-- BMP variant, magic-number check failure in `loadBMP`: stderr line and
`exit(1)`. -/
def bmpNotBMPExit : String × Int := ("Error: Not a BMP file.", 1)

/-- stb variant, `stbi_load` returning `NULL`: stderr line and `return -1`
from `main` (not exit status 1). -/
def stbLoadFailureExit : String × Int :=
  ("Error: Could not load JPG image.", -1)

/-- OpenCV variant, `cv::imread` yielding an empty image: stderr line and
`return -1` from `main` (not exit status 1). -/
def cvLoadFailureExit : String × Int := ("Error: Could not load image.", -1)

/-! ## The pipeline of `main` (claim C8)

The checked OpenCL steps of the BMP variant's `main`, in program order.
Each step's CL call yields a `cl_int` error code that is passed to
`checkError` (the program-build step routes through the build-log block
first, see `buildProgramPhase`; binds are aggregated, see
`setKernelArgErrAccum` — both still abort exactly when the code is
nonzero, which is what `runSteps` captures).  Only after every step has
succeeded does the program call `saveBMP("gray_image.bmp", ...)`, print the
confirmation and return 0.
-/

/-- One checked step of the pipeline. -/
inductive Step
  | getPlatform
  | getDevice
  | createContext
  | createQueue
  | createProgram
  | buildProgram
  | createInputBuffer
  | createOutputBuffer
  | writeInputBuffer
  | createKernel
  | setKernelArgs
  | enqueueKernel
  | readOutputBuffer
deriving DecidableEq

/-- The steps of `main` in source order. -/
def pipelineSteps : List Step :=
  [Step.getPlatform, Step.getDevice, Step.createContext, Step.createQueue,
   Step.createProgram, Step.buildProgram, Step.createInputBuffer,
   Step.createOutputBuffer, Step.writeInputBuffer, Step.createKernel,
   Step.setKernelArgs, Step.enqueueKernel, Step.readOutputBuffer]

/-- Run the straight-line pipeline: the first step whose CL call reports a
nonzero error code aborts the process via `checkError` with exit status 1
and no file written; if every step succeeds, `saveBMP` writes the output
file and `main` returns 0.  The result is the pair (files written, exit
status). -/
def runSteps (errs : Step → Int) : List Step → List String × Int
  | [] => (["gray_image.bmp"], 0)
  | s :: rest => if errs s = 0 then runSteps errs rest else ([], 1)

/-- The whole run of `main` given the error code each CL call returns. -/
def runPipeline (errs : Step → Int) : List String × Int :=
  runSteps errs pipelineSteps

/-- Error-code assignment of the spec's failure scenario: no GPU-class
device exists, so `clGetDeviceIDs` returns `CL_DEVICE_NOT_FOUND` (-1) and
every other call succeeds. -/
def noGpuErrs : Step → Int := fun s => if s = Step.getDevice then -1 else 0

/-! ## Build-log handling (claim C9)

    err = clBuildProgram(program, 0, NULL, NULL, NULL, NULL);
    if (err != CL_SUCCESS) {
        size_t log_size;
        clGetProgramBuildInfo(..., CL_PROGRAM_BUILD_LOG, 0, NULL, &log_size);
        char* log = (char*)malloc(log_size);
        clGetProgramBuildInfo(..., CL_PROGRAM_BUILD_LOG, log_size, log, NULL);
        fprintf(stderr, "Build log:\n%s\n", log);
        free(log);
        checkError(err, "Building program");
    }
-/

/-- The program-build phase: given the `clBuildProgram` error code and the
device-compiler build log, the pair of (stderr lines written in order,
exit status if the phase aborts).  On failure the retrieved log is written
verbatim first, then `checkError` writes its line and exits 1. -/
def buildProgramPhase (err : Int) (buildLog : String) : List String × Option Int :=
  if err = 0 then ([], none)
  else (["Build log:\n" ++ buildLog ++ "\n", clErrorMessage "Building program" err],
        some 1)

/-! ## Kernel-argument bind aggregation (claim C7)

    err = clSetKernelArg(kernel, 0, sizeof(cl_mem), &inputBuffer);
    err |= clSetKernelArg(kernel, 1, sizeof(cl_mem), &outputBuffer);
    err |= clSetKernelArg(kernel, 2, sizeof(int), &width);
    err |= clSetKernelArg(kernel, 3, sizeof(int), &height);
    err |= clSetKernelArg(kernel, 4, sizeof(int), &channels);
    checkError(err, "Setting kernel arguments");

The bitwise OR acts on the 32-bit two's-complement representations of the
`cl_int` codes; a representation is zero exactly when the code is
`CL_SUCCESS`.  We model each code by its 32-bit bit pattern as a `Nat`.
-/

/-- The accumulated value of `err` after the five bind calls, as in the
source: left-associated bitwise OR of the five bit patterns. -/
def setKernelArgErrAccum (e0 e1 e2 e3 e4 : Nat) : Nat :=
  (((e0 ||| e1) ||| e2) ||| e3) ||| e4

/-- `checkError` aborts the run exactly when the accumulated value is
nonzero. -/
def bindCheckAborts (e : Nat) : Prop := e ≠ 0

/-! ## Resource creation and release order (claim C5)

Creation order in `main` (all variants): context, queue, program,
input buffer, output buffer, kernel.  Release calls on the success path:

    clReleaseKernel(kernel);
    clReleaseProgram(program);
    clReleaseMemObject(inputBuffer);
    clReleaseMemObject(outputBuffer);
    clReleaseCommandQueue(queue);
    clReleaseContext(context);

On every fatal path `checkError` (or the loader error branch) calls
`exit(1)` / `return -1` immediately: no release call is ever reached.
-/

/-- The six device resources of a run. -/
inductive Resource
  | context
  | queue
  | program
  | inputBuffer
  | outputBuffer
  | kernel
deriving DecidableEq

/-- Order in which the resources are created in `main`. -/
def creationOrder : List Resource :=
  [Resource.context, Resource.queue, Resource.program, Resource.inputBuffer,
   Resource.outputBuffer, Resource.kernel]

/-- Order in which the resources are released on the success path. -/
def releaseOrderSuccess : List Resource :=
  [Resource.kernel, Resource.program, Resource.inputBuffer,
   Resource.outputBuffer, Resource.queue, Resource.context]

/-- Resources released on a fatal path: none — `checkError` exits the
process at once. -/
def releaseOrderOnFatal : List Resource := []

/-! ## Buffer lengths used by the kernel (claim C10) -/

/-- Length in bytes of the input buffer for a `width × height` image with
`channels` bytes per pixel. -/
def inputLen (width height channels : Nat) : Nat := width * height * channels

/-- Length in bytes of the output buffer: one byte per pixel. -/
def outputLen (width height : Nat) : Nat := width * height

/-! ## Helper lemmas -/

/-- `w299` is a normalized 24-bit significand within half an ulp of
`299/1000`, hence the round-to-nearest binary32 value of `0.299`. -/
theorem w299_nearest :
    2 ^ 23 ≤ w299.m ∧ w299.m < 2 ^ 24 ∧ |w299.val - 299 / 1000| < 1 / 2 ^ 26 := by
  refine ⟨by decide, by decide, ?_⟩
  rw [w299, Dyadic.val]
  rw [abs_sub_lt_iff]
  norm_num

/-- `w587` is a normalized 24-bit significand within half an ulp of
`587/1000`, hence the round-to-nearest binary32 value of `0.587`. -/
theorem w587_nearest :
    2 ^ 23 ≤ w587.m ∧ w587.m < 2 ^ 24 ∧ |w587.val - 587 / 1000| < 1 / 2 ^ 25 := by
  refine ⟨by decide, by decide, ?_⟩
  rw [w587, Dyadic.val]
  rw [abs_sub_lt_iff]
  norm_num

/-- `w114` is a normalized 24-bit significand within half an ulp of
`114/1000`, hence the round-to-nearest binary32 value of `0.114`. -/
theorem w114_nearest :
    2 ^ 23 ≤ w114.m ∧ w114.m < 2 ^ 24 ∧ |w114.val - 114 / 1000| < 1 / 2 ^ 28 := by
  refine ⟨by decide, by decide, ?_⟩
  rw [w114, Dyadic.val]
  rw [abs_sub_lt_iff]
  norm_num

theorem grayIdx_lt_of_lt (w h x y : Nat) (hx : x < w) (hy : y < h) :
    y * w + x < w * h := by
  have h1 : y * w + x < (y + 1) * w := by
    have : (y + 1) * w = y * w + w := by ring
    omega
  have h2 : (y + 1) * w ≤ h * w := Nat.mul_le_mul_right w hy
  have h3 : h * w = w * h := Nat.mul_comm h w
  omega

theorem runKernel_getElem (input : Nat → Nat) (w h c x y : Nat)
    (hw : 0 < w) (hx : x < w) (hy : y < h) :
    (runKernel input w h c)[grayIdx w x y]? =
      some (rgbToGrayWorkItem input w c x y) := by
  have hlt : y * w + x < w * h := grayIdx_lt_of_lt w h x y hx hy
  have hmod : (y * w + x) % w = x := by
    rw [Nat.mul_comm y w, Nat.mul_add_mod]
    exact Nat.mod_eq_of_lt hx
  have hdiv : (y * w + x) / w = y := by
    rw [Nat.mul_comm y w, Nat.mul_add_div hw]
    simp [Nat.div_eq_of_lt hx]
  unfold runKernel grayIdx
  rw [List.getElem?_map, List.getElem?_range hlt]
  simp [hmod, hdiv]

theorem runKernel_length (input : Nat → Nat) (w h c : Nat) :
    (runKernel input w h c).length = w * h := by
  simp [runKernel]

theorem div_mul_add_mod (i w : Nat) : i / w * w + i % w = i := by
  rw [Nat.mul_comm]
  exact Nat.div_add_mod i w

theorem lor_eq_zero_iff_helper (a b : Nat) : a ||| b = 0 ↔ a = 0 ∧ b = 0 := by
  constructor
  · intro h
    constructor <;> apply Nat.eq_of_testBit_eq <;> intro j <;>
      have ht := congrArg (fun t => Nat.testBit t j) h <;>
      simp only [Nat.testBit_lor, Nat.zero_testBit, Bool.or_eq_false_iff] at ht
    · simp [ht.1]
    · simp [ht.2]
  · rintro ⟨rfl, rfl⟩
    rfl

theorem runSteps_failure (errs : Step → Int) (l : List Step) (s : Step)
    (hs : s ∈ l) (he : errs s ≠ 0) : runSteps errs l = ([], 1) := by
  induction l with
  | nil => cases hs
  | cons t rest ih =>
    by_cases ht : errs t = 0
    · have hsr : s ∈ rest := by
        rcases List.mem_cons.mp hs with rfl | hmem
        · exact absurd ht he
        · exact hmem
      simpa [runSteps, ht] using ih hsr
    · simp [runSteps, ht]

/-! ## Claim C1 -/

/-- C1 (counterexample): the kernel does not compute the exactly-truncated
`0.299*red + 0.587*green + 0.114*blue` for every pixel.  At
`(red, green, blue) = (8, 80, 32)` the exact weighted sum is exactly 53,
but the binary32 evaluation of the kernel expression yields a value just
below 53 and the `(uchar)` cast truncates it to 52. -/
theorem grayF32_exact_trunc_counterexample :
    grayF32 8 80 32 = 52 ∧ (299 * 8 + 587 * 80 + 114 * 32) / 1000 = 53 ∧
    grayF32 8 80 32 ≠ (299 * 8 + 587 * 80 + 114 * 32) / 1000 := by
  decide

/-- C1 (amended): each work-item computes the binary32 (round-to-nearest-
even, left-associated) evaluation of
`(uchar)(0.299f*red + 0.587f*green + 0.114f*blue)` on the channel bytes at
`idx+2`, `idx+1`, `idx`; on an all-white image every output byte is 255, on
an all-black image every output byte is 0, and on a pure-red image stored
per the B,G,R channel contract every output byte is 76. -/
theorem grayscale_reference_vectors (w h c x y : ℕ) (input : ℕ → ℕ) :
    rgbToGrayWorkItem input w c x y =
      grayF32 (input ((y * w + x) * c + 2)) (input ((y * w + x) * c + 1))
        (input ((y * w + x) * c)) ∧
    runKernel whiteInput w h c = List.replicate (w * h) 255 ∧
    runKernel blackInput w h c = List.replicate (w * h) 0 ∧
    runKernel bgrPureRedInput w h 3 = List.replicate (w * h) 76 := by
  refine ⟨rfl, ?_, ?_, ?_⟩
  · rw [List.eq_replicate_iff]
    refine ⟨runKernel_length _ _ _ _, ?_⟩
    intro v hv
    rcases List.mem_map.mp hv with ⟨j, hj, rfl⟩
    show rgbToGrayWorkItem whiteInput w c (j % w) (j / w) = 255
    simp only [rgbToGrayWorkItem, whiteInput]
    decide
  · rw [List.eq_replicate_iff]
    refine ⟨runKernel_length _ _ _ _, ?_⟩
    intro v hv
    rcases List.mem_map.mp hv with ⟨j, hj, rfl⟩
    show rgbToGrayWorkItem blackInput w c (j % w) (j / w) = 0
    simp only [rgbToGrayWorkItem, blackInput]
    decide
  · rw [List.eq_replicate_iff]
    refine ⟨runKernel_length _ _ _ _, ?_⟩
    intro v hv
    rcases List.mem_map.mp hv with ⟨j, hj, rfl⟩
    show rgbToGrayWorkItem bgrPureRedInput w 3 (j % w) (j / w) = 76
    unfold rgbToGrayWorkItem kIdx
    rw [div_mul_add_mod j w]
    have e0 : bgrPureRedInput (j * 3) = 0 := by
      have : j * 3 % 3 = 0 := by omega
      simp [bgrPureRedInput, this]
    have e1 : bgrPureRedInput (j * 3 + 1) = 0 := by
      have : (j * 3 + 1) % 3 = 1 := by omega
      simp [bgrPureRedInput, this]
    have e2 : bgrPureRedInput (j * 3 + 2) = 255 := by
      have : (j * 3 + 2) % 3 = 2 := by omega
      simp [bgrPureRedInput, this]
    simp only [e0, e1, e2]
    decide

/-! ## Claim C2 -/

/-- C2: the kernel is launched over a 2D index space of exactly
`(width, height)` work-items with no local-size hint; the work-item `(x, y)`
reads its pixel at byte offset `(y*width + x) * channels` (and the two
following bytes) and writes exactly one output byte at offset
`y*width + x`; the pixel-to-work-item map is injective (distinct grid cells
write distinct output bytes) and surjective onto the `width*height` output
bytes (no padding beyond the image bounds). -/
theorem kernel_dispatch_grid (w h c x y i x' y' : ℕ) (input : ℕ → ℕ)
    (hw : 0 < w) (hh : 0 < h) (hx : x < w) (hy : y < h) (hi : i < w * h)
    (hx' : x' < w) (hy' : y' < h) (heq : grayIdx w x' y' = grayIdx w x y) :
    workDim = 2 ∧
    globalWorkSize w h = [w, h] ∧
    localWorkSize = none ∧
    (runKernel input w h c).length = w * h ∧
    (runKernel input w h c)[grayIdx w x y]? =
      some (rgbToGrayWorkItem input w c x y) ∧
    rgbToGrayWorkItem input w c x y =
      grayF32 (input ((y * w + x) * c + 2)) (input ((y * w + x) * c + 1))
        (input ((y * w + x) * c)) ∧
    (x' = x ∧ y' = y) ∧
    (∃ a b, a < w ∧ b < h ∧ grayIdx w a b = i) := by
  refine ⟨rfl, rfl, rfl, runKernel_length input w h c,
    runKernel_getElem input w h c x y hw hx hy, rfl, ?_, ?_⟩
  · have h1 : y' * w + x' = y * w + x := heq
    have hxx : x' = x := by
      have e1 : (y' * w + x') % w = x' := by
        rw [Nat.mul_comm y' w, Nat.mul_add_mod]
        exact Nat.mod_eq_of_lt hx'
      have e2 : (y * w + x) % w = x := by
        rw [Nat.mul_comm y w, Nat.mul_add_mod]
        exact Nat.mod_eq_of_lt hx
      rw [← e1, ← e2, h1]
    refine ⟨hxx, ?_⟩
    have h2 : y' * w = y * w := by omega
    exact Nat.eq_of_mul_eq_mul_right hw h2
  · refine ⟨i % w, i / w, Nat.mod_lt i hw, ?_, div_mul_add_mod i w⟩
    rw [Nat.div_lt_iff_lt_mul hw, Nat.mul_comm h w]
    exact hi

/-- Closed instance of `kernel_dispatch_grid` at a concrete non-square
image (`width = 3`, `height = 2`, `channels = 3`). -/
theorem kernel_dispatch_grid_witness :
    workDim = 2 ∧
    globalWorkSize 3 2 = [3, 2] ∧
    localWorkSize = none ∧
    (runKernel (fun j => j % 256) 3 2 3).length = 3 * 2 ∧
    (runKernel (fun j => j % 256) 3 2 3)[grayIdx 3 2 1]? =
      some (rgbToGrayWorkItem (fun j => j % 256) 3 3 2 1) ∧
    rgbToGrayWorkItem (fun j => j % 256) 3 3 2 1 =
      grayF32 (((1 * 3 + 2) * 3 + 2) % 256) (((1 * 3 + 2) * 3 + 1) % 256)
        (((1 * 3 + 2) * 3) % 256) ∧
    (2 = 2 ∧ 1 = 1) ∧
    (∃ a b, a < 3 ∧ b < 2 ∧ grayIdx 3 a b = 4) :=
  kernel_dispatch_grid 3 2 3 2 1 4 2 1 (fun j => j % 256) (by decide)
    (by decide) (by decide) (by decide) (by decide) (by decide) (by decide)
    rfl


/-! ## Claim C3 -/

/-- C3: the host result buffer is `width*height` bytes in every variant,
and the output device buffer is `width*height` bytes in the BMP and stb
variants; but in the OpenCV variant the output device buffer is allocated
with `colorImage.total() / channels = (width*height)/channels` bytes —
for a 2×2 3-channel image that is 1 byte, while the readback requests the
4-byte `width*height`. -/
theorem output_buffer_size_mismatch_cv :
    outputBufferSizeBMP 2 2 = 4 ∧ hostResultSizeBMP 2 2 = 4 ∧
    outputBufferSizeStb 2 2 = 4 ∧ hostResultSizeStb 2 2 = 4 ∧
    hostResultSizeCV 2 2 = 4 ∧ outputBufferSizeCV 2 2 3 = 1 ∧
    outputBufferSizeCV 2 2 3 ≠ hostResultSizeCV 2 2 := by
  decide

/-! ## Claim C4 -/

/-- C4 (counterexample): the kernel's channel interpretation (offset 0 =
blue) does not match the R,G,B byte order the stb_image loader produces:
on a pure-red pixel staged in stb order the kernel produces 29
(= trunc(0.114f·255), the blue weight applied to the red channel) instead
of the 76 it produces when the pixel is staged in B,G,R order. -/
theorem stb_channel_order_counterexample :
    kernelChannelAt 0 = some Channel.blue ∧
    stbLoaderChannelAt 0 = some Channel.red ∧
    kernelChannelAt 0 ≠ stbLoaderChannelAt 0 ∧
    rgbToGrayWorkItem stbPureRedInput 1 3 0 0 = 29 ∧
    rgbToGrayWorkItem bgrPureRedInput 1 3 0 0 = 76 := by
  decide

/-- C4 (amended): in every variant the kernel reads the bytes at
`idx, idx+1, idx+2` treating offset 0 as blue, 1 as green, 2 as red; this
matches the B,G,R order of the BMP and OpenCV loaders, but not the R,G,B
order of the stb_image loader, which has red and blue swapped relative to
the kernel's interpretation. -/
theorem kernel_loader_channel_contract (i : ℕ) :
    kernelChannelAt i = bmpLoaderChannelAt i ∧
    kernelChannelAt i = cvLoaderChannelAt i ∧
    kernelChannelAt 0 ≠ stbLoaderChannelAt 0 ∧
    kernelChannelAt 2 ≠ stbLoaderChannelAt 2 ∧
    kernelChannelAt 1 = stbLoaderChannelAt 1 := by
  match i with
  | 0 => decide
  | 1 => decide
  | 2 => decide
  | n + 3 =>
    refine ⟨rfl, rfl, by decide, by decide, by decide⟩

/-! ## Claim C5 -/

/-- C5 (counterexample): the release sequence on the success path is not
the strict reverse of the creation sequence (the program is released
before the buffers although it was created before them, and the input
buffer before the output buffer), and on fatal paths nothing is released
at all. -/
theorem release_order_counterexample :
    releaseOrderSuccess ≠ creationOrder.reverse ∧
    releaseOrderOnFatal ≠ creationOrder.reverse ∧
    creationOrder.reverse =
      [Resource.kernel, Resource.outputBuffer, Resource.inputBuffer,
       Resource.program, Resource.queue, Resource.context] := by
  decide

/-- C5 (amended): on the success path each of the six device resources is
released exactly once, with the context released last — after every
buffer, the kernel, the program and the queue — so the context does
outlive every buffer and the kernel handle; but the order is kernel,
program, input buffer, output buffer, queue, context rather than strict
reverse-creation order, and on fatal paths the process exits without
releasing any resource. -/
theorem release_order_structure :
    creationOrder.Perm releaseOrderSuccess ∧
    releaseOrderSuccess.Nodup ∧
    releaseOrderSuccess.getLast? = some Resource.context ∧
    releaseOrderOnFatal = [] := by
  refine ⟨?_, by decide, by decide, rfl⟩
  decide

/-! ## Claim C6 -/

/-- C6 (counterexample): not every fatal condition produces the
`"Error: <step-description> (Error code: <integer>)"` line with exit
status 1: the stb and OpenCV variants return -1 from `main` when the
image fails to load (after an `"Error: ..."` line with no error-code
suffix), and the OpenCV variant's `checkError` writes `(error code: ...)`
in lowercase. -/
theorem fatal_exit_format_counterexample :
    stbLoadFailureExit.2 = -1 ∧ stbLoadFailureExit.2 ≠ 1 ∧
    cvLoadFailureExit.2 ≠ 1 ∧
    clErrorMessageCV "Getting device" (-1) ≠
      clErrorMessage "Getting device" (-1) := by
  decide

/-- C6 (amended): every fatal condition detected by `checkError` writes
exactly `"Error: <step-description> (Error code: <integer>)"` to the error
stream and exits with status 1 (the OpenCV variant writes `error code` in
lowercase), and on success the program writes the one-line confirmation
and exits with status 0; image-loader failures, however, write an
`"Error: ..."` line without the error-code suffix and exit 1 (BMP variant)
or return -1 (stb and OpenCV variants). -/
theorem checkError_exit_format (err : Int) (desc : String) (he : err ≠ 0) :
    checkErrorRun err desc = some (clErrorMessage desc err, 1) ∧
    checkErrorRun 0 desc = none ∧
    clErrorMessage desc err =
      "Error: " ++ desc ++ " (Error code: " ++ toString err ++ ")" ∧
    successExit = ("Grayscale image has been generated.", 0) ∧
    bmpOpenFailureExit.2 = 1 ∧ bmpNotBMPExit.2 = 1 ∧
    stbLoadFailureExit.2 = -1 ∧ cvLoadFailureExit.2 = -1 := by
  refine ⟨?_, ?_, rfl, rfl, rfl, rfl, rfl, rfl⟩
  · simp [checkErrorRun, he]
  · simp [checkErrorRun]

/-- Closed instance of `checkError_exit_format` at the error code -1
(`CL_DEVICE_NOT_FOUND`) and the step description of the device-selection
call. -/
theorem checkError_exit_format_witness :
    checkErrorRun (-1) "Getting device" =
      some (clErrorMessage "Getting device" (-1), 1) ∧
    checkErrorRun 0 "Getting device" = none ∧
    clErrorMessage "Getting device" (-1) =
      "Error: " ++ "Getting device" ++ " (Error code: " ++
        toString (-1 : Int) ++ ")" ∧
    successExit = ("Grayscale image has been generated.", 0) ∧
    bmpOpenFailureExit.2 = 1 ∧ bmpNotBMPExit.2 = 1 ∧
    stbLoadFailureExit.2 = -1 ∧ cvLoadFailureExit.2 = -1 :=
  checkError_exit_format (-1) "Getting device" (by decide)

/-! ## Claim C7 -/

/-- C7: with the five bind error codes modelled by their 32-bit patterns,
the aggregated check of `checkError(err, "Setting kernel arguments")`
aborts the run exactly when at least one bind call returned a nonzero
code: no combination with a nonzero member makes the accumulated
bitwise-OR zero. -/
theorem bind_error_or_aggregation (e0 e1 e2 e3 e4 : ℕ) :
    bindCheckAborts (setKernelArgErrAccum e0 e1 e2 e3 e4) ↔
      ¬(e0 = 0 ∧ e1 = 0 ∧ e2 = 0 ∧ e3 = 0 ∧ e4 = 0) := by
  unfold bindCheckAborts setKernelArgErrAccum
  constructor
  · intro hne hall
    apply hne
    obtain ⟨h0, h1, h2, h3, h4⟩ := hall
    subst h0; subst h1; subst h2; subst h3; subst h4
    rfl
  · intro hnot heq
    apply hnot
    have h01 := (lor_eq_zero_iff_helper _ _).mp heq
    have h02 := (lor_eq_zero_iff_helper _ _).mp h01.1
    have h03 := (lor_eq_zero_iff_helper _ _).mp h02.1
    have h04 := (lor_eq_zero_iff_helper _ _).mp h03.1
    exact ⟨h04.1, h04.2, h03.2, h02.2, h01.2⟩

/-! ## Claim C8 -/

/-- C8: a nonzero error code at any pipeline step makes the run abort with
exit status 1 and no output file written (the only file write happens
after every step has succeeded), while an all-success run writes exactly
the output file and exits 0. -/
theorem pipeline_failure_no_output (errs : Step → Int) (s : Step)
    (hs : s ∈ pipelineSteps) (he : errs s ≠ 0) :
    (runPipeline errs).1 = [] ∧ (runPipeline errs).2 = 1 ∧
    runPipeline (fun _ => 0) = (["gray_image.bmp"], 0) := by
  have habort := runSteps_failure errs pipelineSteps s hs he
  unfold runPipeline
  rw [habort]
  exact ⟨rfl, rfl, rfl⟩

/-- Closed instance of `pipeline_failure_no_output` for the spec's failure
scenario: no GPU-class device, `clGetDeviceIDs` returns
`CL_DEVICE_NOT_FOUND`. -/
theorem pipeline_failure_no_output_witness :
    Step.getDevice ∈ pipelineSteps ∧ noGpuErrs Step.getDevice ≠ 0 ∧
    ((runPipeline noGpuErrs).1 = [] ∧ (runPipeline noGpuErrs).2 = 1 ∧
     runPipeline (fun _ => 0) = (["gray_image.bmp"], 0)) :=
  ⟨by decide, by decide,
   pipeline_failure_no_output noGpuErrs Step.getDevice (by decide)
     (by decide)⟩

/-! ## Claim C9 -/

/-- C9: whenever `clBuildProgram` reports a nonzero error code, the
retrieved build log is written verbatim to the error stream strictly
before the aborting `checkError` line, and the phase then exits with
status 1; a zero code writes nothing and does not abort. -/
theorem build_log_before_abort (e : Int) (buildLog : String) (he : e ≠ 0) :
    buildProgramPhase e buildLog =
      (["Build log:\n" ++ buildLog ++ "\n",
        clErrorMessage "Building program" e], some 1) ∧
    (buildProgramPhase e buildLog).1.head? =
      some ("Build log:\n" ++ buildLog ++ "\n") ∧
    buildProgramPhase 0 buildLog = ([], none) := by
  refine ⟨?_, ?_, by simp [buildProgramPhase]⟩ <;>
    simp [buildProgramPhase, he]

/-- Closed instance of `build_log_before_abort` at the error code -11
(`CL_BUILD_PROGRAM_FAILURE`) and a concrete compiler log. -/
theorem build_log_before_abort_witness :
    buildProgramPhase (-11) "kernel.cl:1: error" =
      (["Build log:\n" ++ "kernel.cl:1: error" ++ "\n",
        clErrorMessage "Building program" (-11)], some 1) ∧
    (buildProgramPhase (-11) "kernel.cl:1: error").1.head? =
      some ("Build log:\n" ++ "kernel.cl:1: error" ++ "\n") ∧
    buildProgramPhase 0 "kernel.cl:1: error" = ([], none) :=
  build_log_before_abort (-11) "kernel.cl:1: error" (by decide)

/-! ## Claim C10 -/

/-- C10: for a `width × height` image the write of every in-grid work-item
is in bounds; all three reads of every in-grid work-item are in bounds
exactly when `channels ≥ 3`; and for `channels = 1` the reads at `idx+1`
and `idx+2` of the last work-item fall at or past the end of the input
buffer. -/
theorem kernel_memory_bounds (w h c x y : ℕ) (hw : 0 < w) (hh : 0 < h)
    (hx : x < w) (hy : y < h) :
    grayIdx w x y < outputLen w h ∧
    ((∀ a b, a < w → b < h →
        ∀ j ∈ inputReads w c a b, j < inputLen w h c) ↔ 3 ≤ c) ∧
    (c = 1 → inputLen w h c ≤ kIdx w c (w - 1) (h - 1) + 1 ∧
             inputLen w h c ≤ kIdx w c (w - 1) (h - 1) + 2) := by
  have hlast : (h - 1) * w + (w - 1) = w * h - 1 := by
    rcases w with _ | w'
    · exact absurd hw (by decide)
    rcases h with _ | h'
    · exact absurd hh (by decide)
    simp only [Nat.add_sub_cancel]
    have e1 : h' * (w' + 1) = h' * w' + h' := by ring
    have e2 : (w' + 1) * (h' + 1) = h' * w' + h' + w' + 1 := by ring
    rw [e1, e2]
    omega
  refine ⟨grayIdx_lt_of_lt w h x y hx hy, ⟨?_, ?_⟩, ?_⟩
  · intro hall
    have hmem : kIdx w c (w - 1) (h - 1) + 2 ∈ inputReads w c (w - 1) (h - 1) := by
      simp [inputReads]
    have hb := hall (w - 1) (h - 1) (by omega) (by omega) _ hmem
    unfold kIdx inputLen at hb
    rw [hlast] at hb
    rcases Nat.exists_eq_add_of_lt (Nat.mul_pos hw hh) with ⟨m, hm⟩
    rw [Nat.zero_add] at hm
    rw [hm] at hb
    have e3 : (m + 1 - 1) * c = m * c := by simp
    have e4 : (m + 1) * c = m * c + c := by ring
    rw [e3, e4] at hb
    omega
  · intro hc a b ha hb j hj
    have hcell : b * w + a < w * h := grayIdx_lt_of_lt w h a b ha hb
    have hkey : (b * w + a) * c + 2 < w * h * c := by
      have h1 : (b * w + a) * c + 2 < (b * w + a) * c + c := by omega
      have h2 : (b * w + a) * c + c = (b * w + a + 1) * c := by ring
      have h3 : (b * w + a + 1) * c ≤ w * h * c :=
        Nat.mul_le_mul_right c hcell
      omega
    simp only [inputReads, kIdx, List.mem_cons] at hj
    unfold inputLen
    rcases hj with rfl | rfl | rfl | hnil
    · omega
    · omega
    · omega
    · cases hnil
  · intro hc1
    subst hc1
    unfold inputLen kIdx
    rw [hlast]
    have hpos : 0 < w * h := Nat.mul_pos hw hh
    constructor <;> omega

/-- Closed instance of `kernel_memory_bounds` at a 2×2 image with
3 channels. -/
theorem kernel_memory_bounds_witness :
    grayIdx 2 1 1 < outputLen 2 2 ∧
    ((∀ a b, a < 2 → b < 2 →
        ∀ j ∈ inputReads 2 3 a b, j < inputLen 2 2 3) ↔ 3 ≤ 3) ∧
    (3 = 1 → inputLen 2 2 3 ≤ kIdx 2 3 (2 - 1) (2 - 1) + 1 ∧
             inputLen 2 2 3 ≤ kIdx 2 3 (2 - 1) (2 - 1) + 2) :=
  kernel_memory_bounds 2 2 3 1 1 (by decide) (by decide) (by decide)
    (by decide)
